import Mathlib

/-!
# LightBnB data-access layer: `db/database.js`

A shallow embedding of `getAllProperties` (the filtered search-query builder)
and `addUser`, together with the properties of the query text and of the bound
parameter list that the specification states about them.

Modelling conventions.

* JavaScript arrays are lists; `push` appends at the end.
* JavaScript numbers are modelled by `Int`: the integer-valued numbers, on which
  `*` is exact (inside the safe-integer range).
* An absent (`undefined`) property of the options object is `none`.
* A promise is the pair of the queries issued and the settled outcome
  (`Except.error` for a rejection, `Except.ok` for the resolved value).
* `console.log` calls have no effect on the values computed and are left out.
-/

namespace LightBnB

/-! ## Data model -/

/-- A scalar bound to a placeholder or stored in a column. -/
inductive Value where
  | str (s : String)
  | num (n : Int)
  deriving DecidableEq, Repr

/-- A result row: column name to scalar. -/
abbrev Row := List (String × Value)

/-- The `options` argument of `getAllProperties`; `none` is `undefined`. -/
structure Options where
  city : Option String
  owner_id : Option Int
  minimum_price_per_night : Option Int
  maximum_price_per_night : Option Int
  minimum_rating : Option Int
  deriving DecidableEq, Repr

/-- The truthiness test `if (options.city)`: `undefined` and `""` are falsy. -/
def truthyStr : Option String → Bool
  | none => false
  | some s => s != ""

/-- The truthiness test `if (options.owner_id)`: `undefined` and `0` are falsy. -/
def truthyNum : Option Int → Bool
  | none => false
  | some n => n != 0

/-- The string a template literal interpolates for `options.city`. -/
def templateStr : Option String → String
  | none => "undefined"
  | some s => s

/-- The number `options.minimum_price_per_night * 100` evaluates to (the operand is
not `undefined` where this is used). -/
def times100 : Option Int → Int
  | none => 0
  | some d => d * 100

/-- The local variables of `getAllProperties` when `pool.query` is called. -/
structure Built where
  queryParams : List Value
  whereConditions : List String
  queryString : String
  deriving DecidableEq, Repr

/-- The template placeholder `$${queryParams.length}`. -/
def placeholder (queryParams : List Value) : String :=
  "$" ++ toString queryParams.length

/-- Lines 102-151 of `database.js`: the body of `getAllProperties` up to the call of
`pool.query`. `limit = none` is an omitted argument (default `10`). -/
def buildQuery (options : Options) (limit : Option Int) : Built :=
  let limit : Int := limit.getD 10
  let queryParams : List Value := []
  let queryString : String :=
    "\n    SELECT properties.*, AVG(property_reviews.rating) AS average_rating\n    FROM properties\n    JOIN property_reviews ON properties.id = property_id\n  "
  let whereConditions : List String := []
  -- if (options.city)
  let queryParams :=
    if truthyStr options.city then
      queryParams ++ [Value.str ("%" ++ templateStr options.city ++ "%")]
    else queryParams
  let whereConditions :=
    if truthyStr options.city then
      whereConditions ++ ["city LIKE " ++ placeholder queryParams]
    else whereConditions
  -- if (options.owner_id)
  let queryParams :=
    if truthyNum options.owner_id then
      queryParams ++ [Value.num (options.owner_id.getD 0)]
    else queryParams
  let whereConditions :=
    if truthyNum options.owner_id then
      whereConditions ++ ["owner_id = " ++ placeholder queryParams]
    else whereConditions
  -- if (options.minimum_price_per_night !== undefined)
  let queryParams :=
    if options.minimum_price_per_night.isSome then
      queryParams ++ [Value.num (times100 options.minimum_price_per_night)]
    else queryParams
  let whereConditions :=
    if options.minimum_price_per_night.isSome then
      whereConditions ++ ["cost_per_night >= " ++ placeholder queryParams]
    else whereConditions
  -- if (options.maximum_price_per_night !== undefined)
  let queryParams :=
    if options.maximum_price_per_night.isSome then
      queryParams ++ [Value.num (times100 options.maximum_price_per_night)]
    else queryParams
  let whereConditions :=
    if options.maximum_price_per_night.isSome then
      whereConditions ++ ["cost_per_night <= " ++ placeholder queryParams]
    else whereConditions
  -- if (options.minimum_rating !== undefined)
  let queryParams :=
    if options.minimum_rating.isSome then
      queryParams ++ [Value.num (options.minimum_rating.getD 0)]
    else queryParams
  -- if (whereConditions.length > 0)
  let queryString :=
    if whereConditions.length > 0 then
      queryString ++ ("WHERE " ++ " AND ".intercalate whereConditions ++ " ")
    else queryString
  let queryString := queryString ++ "\n    GROUP BY properties.id\n  "
  -- if (options.minimum_rating !== undefined)
  let queryString :=
    if options.minimum_rating.isSome then
      queryString ++ (" HAVING AVG(property_reviews.rating) >= " ++ placeholder queryParams)
    else queryString
  let queryParams := queryParams ++ [Value.num limit]
  let queryString :=
    queryString ++ ("\n    ORDER BY cost_per_night\n    LIMIT " ++ placeholder queryParams ++ ";\n  ")
  { queryParams := queryParams, whereConditions := whereConditions, queryString := queryString }


/-! ## Query execution and the exported operations -/

/-- The result object `pool.query` resolves with: the properties `command`,
`rowCount` and `rows` of a node-postgres result. -/
structure QueryResult where
  command : String
  rowCount : Nat
  rows : List Row
  deriving DecidableEq, Repr

/-- What an exported operation resolves with. -/
inductive JSVal where
  | undefined
  | num (n : Int)
  | str (s : String)
  | row (r : Row)
  | rows (rs : List Row)
  deriving DecidableEq, Repr

/-- Property access `result.name`: a property the object does not have reads as
`undefined`. -/
def QueryResult.get (result : QueryResult) (name : String) : JSVal :=
  if name = "rows" then JSVal.rows result.rows
  else if name = "rowCount" then JSVal.num result.rowCount
  else if name = "command" then JSVal.str result.command
  else JSVal.undefined

/-- The query-execution capability behind `pool`: it fails with an error or
succeeds with a result object. -/
structure Pool (ε : Type) where
  execute : String → List Value → Except ε QueryResult

/-- A settled promise together with the queries issued to obtain it. -/
structure Promise (ε α : Type) where
  issued : List (String × List Value)
  settled : Except ε α

/-- The call `pool.query(text, params)`. -/
def Pool.query {ε : Type} (pool : Pool ε) (text : String) (params : List Value) :
    Promise ε QueryResult :=
  { issued := [(text, params)], settled := pool.execute text params }

/-- The method `.then(f)` for a callback that returns a value (or a resolved promise):
a rejection passes through unchanged. -/
def Promise.andThen {ε α β : Type} (p : Promise ε α) (f : α → β) : Promise ε β :=
  { issued := p.issued
    settled :=
      match p.settled with
      | Except.ok a => Except.ok (f a)
      | Except.error e => Except.error e }

/-- The method `.catch(h)` for a handler that returns a value: the promise resolves
with what the handler returns. -/
def Promise.catchWith {ε α : Type} (p : Promise ε α) (h : ε → α) : Promise ε α :=
  { issued := p.issued
    settled :=
      match p.settled with
      | Except.ok a => Except.ok a
      | Except.error e => Except.ok (h e) }

/-- Lines 101-156: `getAllProperties(options, limit = 10)`. -/
def getAllProperties {ε : Type} (pool : Pool ε) (options : Options) (limit : Option Int) :
    Promise ε JSVal :=
  let q := buildQuery options limit
  (pool.query q.queryString q.queryParams).andThen (fun res => res.get "rows")

/-- The `user` argument of `addUser`. -/
structure User where
  name : String
  email : String
  password : String
  deriving DecidableEq, Repr

/-- The query text of `addUser`. -/
def addUserText : String :=
  "INSERT INTO users(name, email, password) VALUES ($1, $2, $3) RETURNING *;"

/-- Lines 56-66: `addUser(user)`. The `.then` callback reads `result.row`; the
`.catch` handler logs the message and returns nothing. -/
def addUser {ε : Type} (pool : Pool ε) (user : User) : Promise ε JSVal :=
  ((pool.query addUserText
      [Value.str user.name, Value.str user.email, Value.str user.password]).andThen
    (fun result =>
      let newUser := result.get "row"
      newUser)).catchWith (fun _err => JSVal.undefined)

/-! ## Reading a query text -/

/-- The number a run of decimal digits denotes. -/
def digitsVal (ds : List Char) : Nat :=
  ds.foldl (fun n c => 10 * n + (c.toNat - 48)) 0

/-- The placeholders `$k` of a text, left to right. -/
def placeholdersIn : List Char → List Nat
  | [] => []
  | c :: cs =>
    if c = '$' ∧ cs.takeWhile Char.isDigit ≠ [] then
      digitsVal (cs.takeWhile Char.isDigit) :: placeholdersIn cs
    else placeholdersIn cs

/-- The placeholders `$k` of a query text, left to right. -/
def placeholders (text : String) : List Nat := placeholdersIn text.toList

/-- Does the text begin with `pat`? -/
def startsWith : List Char → List Char → Bool
  | [], _ => true
  | _ :: _, [] => false
  | p :: ps, c :: cs => p == c && startsWith ps cs

/-- The position of the first occurrence of `pat`. -/
def findSub (pat : List Char) : List Char → Option Nat
  | [] => if pat.isEmpty then some 0 else none
  | c :: cs =>
    if startsWith pat (c :: cs) then some 0 else (findSub pat cs).map (fun i => i + 1)

/-- The number of positions at which `pat` occurs. -/
def countSub (pat : List Char) : List Char → Nat
  | [] => 0
  | c :: cs => (if startsWith pat (c :: cs) then 1 else 0) + countSub pat cs

/-- The position of the first occurrence of `pat` in `text`. -/
def indexOf? (pat text : String) : Option Nat := findSub pat.toList text.toList

/-- The number of occurrences of `pat` in `text`. -/
def occurrences (pat text : String) : Nat := countSub pat.toList text.toList

/-- The text contains `pat`. -/
def occursIn (pat text : String) : Bool := (indexOf? pat text).isSome

/-- Both occur, and the first occurrence of `a` ends before the first of `b` begins. -/
def occursBefore (a b text : String) : Bool :=
  match indexOf? a text, indexOf? b text with
  | some i, some j => i + a.length ≤ j
  | _, _ => false

/-- The text ends with `suffix`. -/
def endsWith (text suffix : String) : Bool :=
  startsWith suffix.toList.reverse text.toList.reverse

/-- The words of a text: maximal runs without a blank or a line break. -/
def wordsFrom : List Char → List Char → List String
  | cur, [] => if cur = [] then [] else [String.mk cur.reverse]
  | cur, c :: cs =>
    if c = ' ' ∨ c = '\n' then
      (if cur = [] then wordsFrom [] cs else String.mk cur.reverse :: wordsFrom [] cs)
    else wordsFrom (c :: cur) cs

/-- The words of a query text. -/
def words (text : String) : List String := wordsFrom [] text.toList

/-- The number of a word that is a placeholder: `$k`, or `$k;` at the end of the
statement. -/
def wordPlaceholder (w : String) : Option Nat :=
  match w.toList with
  | [] => none
  | c :: ds =>
    if c = '$' ∧ ds.takeWhile Char.isDigit ≠ [] ∧
        (ds.dropWhile Char.isDigit = [] ∨ ds.dropWhile Char.isDigit = [';']) then
      some (digitsVal (ds.takeWhile Char.isDigit))
    else none

/-- The placeholders of a word list, each with the clause it stands in: `LIMIT` for
`LIMIT $k`, and the operand and operator before it otherwise (`city LIKE` for
`city LIKE $k`). -/
def clauseRefsFrom (p2 p1 : String) : List String → List (String × Nat)
  | [] => []
  | w :: ws =>
    match wordPlaceholder w with
    | some k =>
      ((if p1 = "LIMIT" then "LIMIT" else p2 ++ " " ++ p1), k) :: clauseRefsFrom p1 w ws
    | none => clauseRefsFrom p1 w ws

/-- The clause and the number of every placeholder of a query text, left to right. -/
def clauseRefs (text : String) : List (String × Nat) := clauseRefsFrom "" "" (words text)

/-- The number of predicates of the WHERE clause of a query text: one more than the
number of `AND`s when there is a WHERE clause. -/
def wherePredicateCount (text : String) : Nat :=
  if occursIn "WHERE " text then occurrences " AND " text + 1 else 0

/-! ## What the specification says is bound, and which branches are taken -/

/-- The value the specification binds in each clause: the wrapped city, the owner
id as given, a price times 100, the minimum rating as given, the limit. -/
def boundValue (o : Options) (limit : Option Int) (clause : String) : Option Value :=
  if clause = "city LIKE" then o.city.map (fun c => Value.str ("%" ++ c ++ "%"))
  else if clause = "owner_id =" then o.owner_id.map Value.num
  else if clause = "cost_per_night >=" then
    o.minimum_price_per_night.map (fun d => Value.num (d * 100))
  else if clause = "cost_per_night <=" then
    o.maximum_price_per_night.map (fun d => Value.num (d * 100))
  else if clause = "AVG(property_reviews.rating) >=" then o.minimum_rating.map Value.num
  else if clause = "LIMIT" then some (Value.num (limit.getD 10))
  else none

/-- The number of the fields `city`, `owner_id`, `minimum_price_per_night` and
`maximum_price_per_night` that are set (not `undefined`). -/
def setCount (o : Options) : Nat :=
  o.city.isSome.toNat + o.owner_id.isSome.toNat +
    o.minimum_price_per_night.isSome.toNat + o.maximum_price_per_night.isSome.toNat

/-- The number of those four fields whose `if` branch is taken. -/
def takenCount (o : Options) : Nat :=
  (truthyStr o.city).toNat + (truthyNum o.owner_id).toNat +
    o.minimum_price_per_night.isSome.toNat + o.maximum_price_per_night.isSome.toNat

/-- Which of the five `if` branches of `getAllProperties` an options object takes. -/
def branches (o : Options) : Bool × Bool × Bool × Bool × Bool :=
  (truthyStr o.city, truthyNum o.owner_id, o.minimum_price_per_night.isSome,
    o.maximum_price_per_night.isSome, o.minimum_rating.isSome)

/-- An options object that takes exactly the given branches. -/
def sample (city owner minPrice maxPrice rating : Bool) : Options :=
  { city := if city then some "x" else none
    owner_id := if owner then some 1 else none
    minimum_price_per_night := if minPrice then some 1 else none
    maximum_price_per_night := if maxPrice then some 1 else none
    minimum_rating := if rating then some 1 else none }

/-! ## The pattern-matching operator `LIKE` -/

/-- The escape character of `LIKE` patterns, the backslash. -/
def likeEscape : Char := Char.ofNat 92

/-- The elements of a `LIKE` pattern: `%`, `_`, or a character standing for itself. -/
inductive LikeItem where
  | anySeq
  | anyOne
  | lit (c : Char)
  deriving DecidableEq, Repr

/-- The element an unescaped pattern character denotes. -/
def likeItem (p : Char) : LikeItem :=
  if p = '%' then LikeItem.anySeq else if p = '_' then LikeItem.anyOne else LikeItem.lit p

/-- The elements of a pattern; the character after an escape stands for itself, and
a pattern that ends in an escape is not a pattern. -/
def likeItems : List Char → Option (List LikeItem)
  | [] => some []
  | [p] => if p = likeEscape then none else some [likeItem p]
  | p :: q :: ps =>
    if p = likeEscape then (likeItems ps).map (fun r => LikeItem.lit q :: r)
    else (likeItems (q :: ps)).map (fun r => likeItem p :: r)

/-- Matching a string against pattern elements: `%` takes any run of characters,
`_` any one character, a literal that very character (letter case included). -/
def itemsMatch : List LikeItem → List Char → Bool
  | [], s => s.isEmpty
  | LikeItem.anySeq :: ps, s => s.tails.any (itemsMatch ps)
  | LikeItem.anyOne :: _, [] => false
  | LikeItem.anyOne :: ps, _ :: s => itemsMatch ps s
  | LikeItem.lit _ :: _, [] => false
  | LikeItem.lit c :: ps, x :: s => x == c && itemsMatch ps s

/-- The SQL predicate `value LIKE pattern`. -/
def sqlLike (value pattern : String) : Bool :=
  match likeItems pattern.toList with
  | none => false
  | some items => itemsMatch items value.toList

/-- A string in lower case. -/
def lowerCase (s : String) : String := String.mk (s.toList.map Char.toLower)

/-- The string `v` contains `c` when letter case is ignored. -/
def containsIgnoringCase (v c : String) : Bool := occursIn (lowerCase c) (lowerCase v)

/-! ## Sample capabilities and inputs -/

/-- A capability that answers every query with the two given rows. -/
def twoRowPool : Pool String :=
  { execute := fun _ _ =>
      Except.ok { command := "SELECT", rowCount := 2,
                  rows := [[("id", Value.num 7)], [("id", Value.num 3)]] } }

/-- The user of the `addUser` example. -/
def ann : User := { name := "Ann", email := "ann@example.com", password := "secret" }

/-- The row the INSERT of `ann` returns. -/
def annRow : Row :=
  [("id", Value.num 1), ("name", Value.str "Ann"), ("email", Value.str "ann@example.com"),
    ("password", Value.str "secret")]

/-- A capability on which every query succeeds with the one row `annRow`. -/
def insertingPool : Pool String :=
  { execute := fun _ _ => Except.ok { command := "INSERT", rowCount := 1, rows := [annRow] } }

/-! # Theorems -/

/-! ## The query text is determined by the branches taken -/

/-- The text, the WHERE predicates and the number of parameters are those of the
sample options object that takes the same branches. -/
theorem buildQuery_sample (o : Options) (l : Option Int) :
    (buildQuery o l).queryString =
        (buildQuery (sample (truthyStr o.city) (truthyNum o.owner_id)
          o.minimum_price_per_night.isSome o.maximum_price_per_night.isSome
          o.minimum_rating.isSome) none).queryString ∧
      (buildQuery o l).whereConditions =
        (buildQuery (sample (truthyStr o.city) (truthyNum o.owner_id)
          o.minimum_price_per_night.isSome o.maximum_price_per_night.isSome
          o.minimum_rating.isSome) none).whereConditions ∧
      (buildQuery o l).queryParams.length =
        (buildQuery (sample (truthyStr o.city) (truthyNum o.owner_id)
          o.minimum_price_per_night.isSome o.maximum_price_per_night.isSome
          o.minimum_rating.isSome) none).queryParams.length := by
  rcases o with ⟨c, ow, mn, mx, r⟩
  cases h1 : truthyStr c <;> cases h2 : truthyNum ow <;> cases h3 : mn.isSome <;>
    cases h4 : mx.isSome <;> cases h5 : r.isSome <;>
    simp only [buildQuery, sample, h1, h2, h3, h4, h5] <;>
    simp [placeholder, truthyStr, truthyNum]

/-- The parameter list, branch by branch. -/
theorem queryParams_eq (o : Options) (l : Option Int) :
    (buildQuery o l).queryParams =
      (if truthyStr o.city then [Value.str ("%" ++ templateStr o.city ++ "%")] else []) ++
      (if truthyNum o.owner_id then [Value.num (o.owner_id.getD 0)] else []) ++
      (if o.minimum_price_per_night.isSome then
        [Value.num (times100 o.minimum_price_per_night)] else []) ++
      (if o.maximum_price_per_night.isSome then
        [Value.num (times100 o.maximum_price_per_night)] else []) ++
      (if o.minimum_rating.isSome then [Value.num (o.minimum_rating.getD 0)] else []) ++
      [Value.num (l.getD 10)] := by
  rcases o with ⟨c, ow, mn, mx, r⟩
  cases h1 : truthyStr c <;> cases h2 : truthyNum ow <;> cases h3 : mn.isSome <;>
    cases h4 : mx.isSome <;> cases h5 : r.isSome <;>
    simp only [buildQuery, h1, h2, h3, h4, h5] <;> simp

/-- The placeholders of the text of a sample options object. -/
theorem placeholders_sample : ∀ a b c d e : Bool,
    placeholders (buildQuery (sample a b c d e) none).queryString =
        List.range' 1 (buildQuery (sample a b c d e) none).queryParams.length ∧
      (buildQuery (sample a b c d e) none).queryString.toList.count '$' =
        (buildQuery (sample a b c d e) none).queryParams.length := by
  decide!

/-- The clauses of the placeholders of the text of a sample options object. -/
theorem clauseRefs_sample : ∀ a b c d e : Bool,
    clauseRefs (buildQuery (sample a b c d e) none).queryString =
      (if a then [("city LIKE", 1)] else []) ++
      (if b then [("owner_id =", a.toNat + 1)] else []) ++
      (if c then [("cost_per_night >=", a.toNat + b.toNat + 1)] else []) ++
      (if d then [("cost_per_night <=", a.toNat + b.toNat + c.toNat + 1)] else []) ++
      (if e then [("AVG(property_reviews.rating) >=",
        a.toNat + b.toNat + c.toNat + d.toNat + 1)] else []) ++
      [("LIMIT", a.toNat + b.toNat + c.toNat + d.toNat + e.toNat + 1)] := by
  decide!

/-- The clauses of the placeholders of any query text built. -/
theorem clauseRefs_eq (o : Options) (l : Option Int) :
    clauseRefs (buildQuery o l).queryString =
      (if truthyStr o.city then [("city LIKE", 1)] else []) ++
      (if truthyNum o.owner_id then [("owner_id =", (truthyStr o.city).toNat + 1)] else []) ++
      (if o.minimum_price_per_night.isSome then
        [("cost_per_night >=", (truthyStr o.city).toNat + (truthyNum o.owner_id).toNat + 1)]
        else []) ++
      (if o.maximum_price_per_night.isSome then
        [("cost_per_night <=", (truthyStr o.city).toNat + (truthyNum o.owner_id).toNat +
          o.minimum_price_per_night.isSome.toNat + 1)] else []) ++
      (if o.minimum_rating.isSome then
        [("AVG(property_reviews.rating) >=", takenCount o + 1)] else []) ++
      [("LIMIT", takenCount o + o.minimum_rating.isSome.toNat + 1)] := by
  rw [(buildQuery_sample o l).1, clauseRefs_sample]
  rfl

/-- C1: the placeholders of the query text, read left to right, are `$1, ..., $N` with
`N` the length of the parameter list, each once (every `$` of the text belongs to
one), and the value the specification binds in the clause of the k-th placeholder
is the k-th parameter. -/
theorem placeholders_numbered_and_aligned (o : Options) (l : Option Int) :
    placeholders (buildQuery o l).queryString =
        List.range' 1 (buildQuery o l).queryParams.length ∧
      (buildQuery o l).queryString.toList.count '$' = (buildQuery o l).queryParams.length ∧
      (clauseRefs (buildQuery o l).queryString).map Prod.snd =
        List.range' 1 (buildQuery o l).queryParams.length ∧
      (clauseRefs (buildQuery o l).queryString).map (fun r => boundValue o l r.1) =
        (buildQuery o l).queryParams.map some := by
  refine ⟨?_, ?_, ?_, ?_⟩
  · rw [(buildQuery_sample o l).1, (buildQuery_sample o l).2.2]
    exact (placeholders_sample _ _ _ _ _).1
  · rw [(buildQuery_sample o l).1, (buildQuery_sample o l).2.2]
    exact (placeholders_sample _ _ _ _ _).2
  · rw [clauseRefs_eq, queryParams_eq]
    rcases o with ⟨c, ow, mn, mx, r⟩
    cases h1 : truthyStr c <;> cases h2 : truthyNum ow <;> cases h3 : mn.isSome <;>
      cases h4 : mx.isSome <;> cases h5 : r.isSome <;>
      simp [takenCount, h1, h2, h3, h4, h5] <;> rfl
  · rw [clauseRefs_eq, queryParams_eq]
    simp only [List.map_append]
    have e1 : boundValue o l "city LIKE" = o.city.map (fun c => Value.str ("%" ++ c ++ "%")) := by
      simp [boundValue]
    have e2 : boundValue o l "owner_id =" = o.owner_id.map Value.num := by
      simp [boundValue]
    have e3 : boundValue o l "cost_per_night >=" =
        o.minimum_price_per_night.map (fun d => Value.num (d * 100)) := by
      simp [boundValue]
    have e4 : boundValue o l "cost_per_night <=" =
        o.maximum_price_per_night.map (fun d => Value.num (d * 100)) := by
      simp [boundValue]
    have e5 : boundValue o l "AVG(property_reviews.rating) >=" =
        o.minimum_rating.map Value.num := by
      simp [boundValue]
    have e6 : boundValue o l "LIMIT" = some (Value.num (l.getD 10)) := by
      simp [boundValue]
    rcases o with ⟨c, ow, mn, mx, r⟩
    simp only at e1 e2 e3 e4 e5 e6
    congr 1
    congr 1
    congr 1
    congr 1
    congr 1
    · cases c <;> simp [truthyStr, templateStr, e1]
      split_ifs <;> simp [e1]
    · cases ow <;> simp [truthyNum, e2]
      split_ifs <;> simp [e2]
    · cases mn <;> simp [times100, e3]
    · cases mx <;> simp [times100, e4]
    · cases r <;> simp [e5]

/-- The WHERE predicates of a sample options object and the number read off its text. -/
theorem whereConditions_sample : ∀ a b c d e : Bool,
    (buildQuery (sample a b c d e) none).whereConditions =
        (if a then ["city LIKE $1"] else []) ++
        (if b then ["owner_id = $" ++ toString (a.toNat + 1)] else []) ++
        (if c then ["cost_per_night >= $" ++ toString (a.toNat + b.toNat + 1)] else []) ++
        (if d then ["cost_per_night <= $" ++ toString (a.toNat + b.toNat + c.toNat + 1)]
          else []) ∧
      (buildQuery (sample a b c d e) none).whereConditions.length =
        a.toNat + b.toNat + c.toNat + d.toNat ∧
      wherePredicateCount (buildQuery (sample a b c d e) none).queryString =
        a.toNat + b.toNat + c.toNat + d.toNat ∧
      (buildQuery (sample a b c d e) none).whereConditions.all
        (fun p => !occursIn "rating" p) = true := by
  decide!

/-- The parameters before the rating and the limit are as many as the branches taken. -/
theorem queryParams_split (o : Options) (l : Option Int) :
    ∃ pre : List Value, pre.length = takenCount o ∧
      (buildQuery o l).queryParams =
        pre ++ ((if o.minimum_rating.isSome then [Value.num (o.minimum_rating.getD 0)]
          else []) ++ [Value.num (l.getD 10)]) := by
  refine ⟨(if truthyStr o.city then [Value.str ("%" ++ templateStr o.city ++ "%")] else []) ++
      (if truthyNum o.owner_id then [Value.num (o.owner_id.getD 0)] else []) ++
      (if o.minimum_price_per_night.isSome then
        [Value.num (times100 o.minimum_price_per_night)] else []) ++
      (if o.maximum_price_per_night.isSome then
        [Value.num (times100 o.maximum_price_per_night)] else []), ?_, ?_⟩
  · cases h1 : truthyStr o.city <;> cases h2 : truthyNum o.owner_id <;>
      cases h3 : o.minimum_price_per_night.isSome <;>
      cases h4 : o.maximum_price_per_night.isSome <;>
      simp [takenCount, h1, h2, h3, h4]
  · rw [queryParams_eq]
    simp only [List.append_assoc]

/-- Fewer branches are taken than fields are set exactly when `city` is `""` or
`owner_id` is `0`. -/
theorem takenCount_eq_setCount_iff (o : Options) :
    takenCount o ≤ setCount o ∧
      (takenCount o = setCount o ↔ o.city ≠ some "" ∧ o.owner_id ≠ some 0) := by
  have h1 : (truthyStr o.city).toNat ≤ o.city.isSome.toNat ∧
      ((truthyStr o.city).toNat = o.city.isSome.toNat ↔ o.city ≠ some "") := by
    cases o.city with
    | none => simp [truthyStr]
    | some c => by_cases hc : c = "" <;> simp [truthyStr, hc, Bool.toNat_le]
  have h2 : (truthyNum o.owner_id).toNat ≤ o.owner_id.isSome.toNat ∧
      ((truthyNum o.owner_id).toNat = o.owner_id.isSome.toNat ↔ o.owner_id ≠ some 0) := by
    cases o.owner_id with
    | none => simp [truthyNum]
    | some n => by_cases hn : n = 0 <;> simp [truthyNum, hn, Bool.toNat_le]
  obtain ⟨a1, a2⟩ := h1
  obtain ⟨b1, b2⟩ := h2
  unfold takenCount setCount
  refine ⟨by omega, fun h => ⟨a2.1 (by omega), b2.1 (by omega)⟩, fun h => ?_⟩
  have := a2.2 h.1
  have := b2.2 h.2
  omega

/-- C2 (as amended): the number of WHERE predicates, in the accumulator and in the
text, is the number of branches taken among `city` (set and not `""`), `owner_id`
(set and not `0`), `minimum_price_per_night` and `maximum_price_per_night` (set);
the parameters before the limit are that many, plus one when `minimum_rating` is
set; and that number is the number of fields set exactly when `city` is not `""`
and `owner_id` is not `0`. -/
theorem where_predicates_count_taken (o : Options) (l : Option Int) :
    (buildQuery o l).whereConditions.length = takenCount o ∧
      wherePredicateCount (buildQuery o l).queryString = takenCount o ∧
      (buildQuery o l).queryParams.dropLast.length =
        takenCount o + o.minimum_rating.isSome.toNat ∧
      (buildQuery o l).queryParams.getLast? = some (Value.num (l.getD 10)) ∧
      takenCount o ≤ setCount o ∧
      (takenCount o = setCount o ↔ o.city ≠ some "" ∧ o.owner_id ≠ some 0) := by
  refine ⟨?_, ?_, ?_, ?_, (takenCount_eq_setCount_iff o).1, (takenCount_eq_setCount_iff o).2⟩
  · rw [(buildQuery_sample o l).2.1]
    exact (whereConditions_sample _ _ _ _ _).2.1
  · rw [(buildQuery_sample o l).1]
    exact (whereConditions_sample _ _ _ _ _).2.2.1
  · obtain ⟨pre, hlen, hq⟩ := queryParams_split o l
    rw [hq, ← List.append_assoc, List.dropLast_concat]
    cases o.minimum_rating.isSome <;> simp [hlen]
  · obtain ⟨pre, _, hq⟩ := queryParams_split o l
    rw [hq, ← List.append_assoc, List.getLast?_concat]

/-- C2 (counterexample): with `city` set to `""` and `owner_id` set to `0`, two of the
four fields are set, yet the query has no WHERE predicate and no parameter before
the limit. -/
theorem where_predicates_count_set_fails :
    setCount ⟨some "", some 0, none, none, none⟩ = 2 ∧
      (buildQuery ⟨some "", some 0, none, none, none⟩ none).whereConditions = [] ∧
      wherePredicateCount (buildQuery ⟨some "", some 0, none, none, none⟩ none).queryString
        = 0 ∧
      (buildQuery ⟨some "", some 0, none, none, none⟩ none).queryParams = [Value.num 10] ∧
      ¬ (wherePredicateCount (buildQuery ⟨some "", some 0, none, none, none⟩ none).queryString
          = setCount ⟨some "", some 0, none, none, none⟩) := by
  set_option maxRecDepth 100000 in decide

/-- C5: with no field set the parameter list is exactly the limit (`10` when the limit
is omitted) and the text has neither a WHERE nor a HAVING clause. -/
theorem no_filters_only_limit (l : Option Int) :
    (buildQuery ⟨none, none, none, none, none⟩ l).queryParams = [Value.num (l.getD 10)] ∧
      occursIn "WHERE" (buildQuery ⟨none, none, none, none, none⟩ l).queryString = false ∧
      occursIn "HAVING" (buildQuery ⟨none, none, none, none, none⟩ l).queryString = false ∧
      (buildQuery ⟨none, none, none, none, none⟩ none).queryParams = [Value.num 10] := by
  refine ⟨by simp [queryParams_eq, truthyStr, truthyNum], ?_, ?_, by decide⟩
  · rw [(buildQuery_sample _ l).1]
    set_option maxRecDepth 100000 in decide
  · rw [(buildQuery_sample _ l).1]
    set_option maxRecDepth 100000 in decide

/-- The tail of the text of a sample options object. -/
theorem order_limit_sample : ∀ a b c d e : Bool,
    endsWith (buildQuery (sample a b c d e) none).queryString
        ("\n    ORDER BY cost_per_night\n    LIMIT $" ++
          toString (buildQuery (sample a b c d e) none).queryParams.length ++ ";\n  ") = true ∧
      occurrences "ORDER BY" (buildQuery (sample a b c d e) none).queryString = 1 ∧
      occurrences "LIMIT" (buildQuery (sample a b c d e) none).queryString = 1 ∧
      occurrences "GROUP BY properties.id" (buildQuery (sample a b c d e) none).queryString = 1 ∧
      occursBefore "GROUP BY properties.id" "ORDER BY cost_per_night"
        (buildQuery (sample a b c d e) none).queryString = true ∧
      occursBefore "WHERE" "GROUP BY" (buildQuery (sample a b c d e) none).queryString =
        occursIn "WHERE" (buildQuery (sample a b c d e) none).queryString := by
  decide!

/-- C7: the text ends with `ORDER BY cost_per_night` and `LIMIT $N;`, `N` the length
of the parameter list, whose last element is the limit (`10` when omitted); there is
one ORDER BY and one GROUP BY properties.id, which comes first; and a WHERE clause,
when there is one, comes before GROUP BY. -/
theorem order_by_cost_then_limit (o : Options) (l : Option Int) :
    endsWith (buildQuery o l).queryString
        ("\n    ORDER BY cost_per_night\n    LIMIT $" ++
          toString (buildQuery o l).queryParams.length ++ ";\n  ") = true ∧
      (buildQuery o l).queryParams.getLast? = some (Value.num (l.getD 10)) ∧
      (buildQuery o none).queryParams.getLast? = some (Value.num 10) ∧
      occurrences "ORDER BY" (buildQuery o l).queryString = 1 ∧
      occurrences "LIMIT" (buildQuery o l).queryString = 1 ∧
      occurrences "GROUP BY properties.id" (buildQuery o l).queryString = 1 ∧
      occursBefore "GROUP BY properties.id" "ORDER BY cost_per_night"
        (buildQuery o l).queryString = true ∧
      occursBefore "WHERE" "GROUP BY" (buildQuery o l).queryString =
        occursIn "WHERE" (buildQuery o l).queryString := by
  have hlast : ∀ l' : Option Int,
      (buildQuery o l').queryParams.getLast? = some (Value.num (l'.getD 10)) := by
    intro l'
    obtain ⟨pre, _, hq⟩ := queryParams_split o l'
    rw [hq, ← List.append_assoc, List.getLast?_concat]
  refine ⟨?_, hlast l, hlast none, ?_⟩
  · rw [(buildQuery_sample o l).1, (buildQuery_sample o l).2.2]
    exact (order_limit_sample _ _ _ _ _).1
  · rw [(buildQuery_sample o l).1]
    exact (order_limit_sample _ _ _ _ _).2

/-- C10: two options objects that take the same branches give the same query text,
whatever their values and whatever the limits, and so the same text is sent to the
capability: the values travel in the parameter list only. -/
theorem queryString_depends_on_branches_only (o₁ o₂ : Options) (l₁ l₂ : Option Int)
    (h : branches o₁ = branches o₂) :
    (buildQuery o₁ l₁).queryString = (buildQuery o₂ l₂).queryString ∧
      ∀ pool : Pool String,
        (getAllProperties pool o₁ l₁).issued.map Prod.fst =
          (getAllProperties pool o₂ l₂).issued.map Prod.fst := by
  simp only [branches, Prod.mk.injEq] at h
  obtain ⟨h1, h2, h3, h4, h5⟩ := h
  have ht : (buildQuery o₁ l₁).queryString = (buildQuery o₂ l₂).queryString := by
    rw [(buildQuery_sample o₁ l₁).1, (buildQuery_sample o₂ l₂).1, h1, h2, h3, h4, h5]
  refine ⟨ht, fun pool => ?_⟩
  simp [getAllProperties, Pool.query, Promise.andThen, ht]

/-- C10 (witness): Paris with a budget and Rome with another one, under different
limits, give one text. -/
theorem queryString_depends_on_branches_only_witness :
    branches ⟨some "paris", none, some 50, none, some 3⟩ =
        branches ⟨some "rome", none, some 80, none, some 5⟩ ∧
      (buildQuery ⟨some "paris", none, some 50, none, some 3⟩ (some 20)).queryString =
        (buildQuery ⟨some "rome", none, some 80, none, some 5⟩ none).queryString :=
  ⟨by decide, (queryString_depends_on_branches_only _ _ _ _ (by decide)).1⟩

/-- The WHERE predicates of any query built. -/
theorem whereConditions_eq (o : Options) (l : Option Int) :
    (buildQuery o l).whereConditions =
      (if truthyStr o.city then ["city LIKE $1"] else []) ++
      (if truthyNum o.owner_id then
        ["owner_id = $" ++ toString ((truthyStr o.city).toNat + 1)] else []) ++
      (if o.minimum_price_per_night.isSome then
        ["cost_per_night >= $" ++
          toString ((truthyStr o.city).toNat + (truthyNum o.owner_id).toNat + 1)] else []) ++
      (if o.maximum_price_per_night.isSome then
        ["cost_per_night <= $" ++
          toString ((truthyStr o.city).toNat + (truthyNum o.owner_id).toNat +
            o.minimum_price_per_night.isSome.toNat + 1)] else []) := by
  rw [(buildQuery_sample o l).2.1]
  exact (whereConditions_sample _ _ _ _ _).1

/-- The HAVING clause of the text of a sample options object. -/
theorem having_sample : ∀ a b c d e : Bool,
    occursIn "HAVING" (buildQuery (sample a b c d e) none).queryString = e ∧
      occurrences "HAVING" (buildQuery (sample a b c d e) none).queryString = e.toNat ∧
      occurrences "rating" (buildQuery (sample a b c d e) none).queryString = 2 + e.toNat ∧
      occurrences
        ("GROUP BY properties.id\n   HAVING AVG(property_reviews.rating) >= $" ++
          toString ((buildQuery (sample a b c d e) none).whereConditions.length + 1) ++
          "\n    ORDER BY")
        (buildQuery (sample a b c d e) none).queryString = e.toNat := by
  decide!

/-- C4: the text has a HAVING clause exactly when `minimum_rating` is set, and no WHERE
predicate mentions the rating; when it is set to `r`, the text has one HAVING clause,
`HAVING AVG(property_reviews.rating) >= $k` right after GROUP BY and right before
ORDER BY, with `k` one more than the number of WHERE predicates and the k-th
parameter `r` itself. `{minimum_rating: 4}` gives no WHERE clause and the parameters
`[4, 10]`; `{city: "paris", minimum_rating: 3}` with limit 20 gives
`["%paris%", 3, 20]`. -/
theorem having_iff_minimum_rating (o : Options) (l : Option Int) :
    occursIn "HAVING" (buildQuery o l).queryString = o.minimum_rating.isSome ∧
    (buildQuery o l).whereConditions.all (fun p => !occursIn "rating" p) = true ∧
    occurrences "rating" (buildQuery o l).queryString = 2 + o.minimum_rating.isSome.toNat ∧
    (∀ r, o.minimum_rating = some r →
      occurrences "HAVING" (buildQuery o l).queryString = 1 ∧
      occurrences
        ("GROUP BY properties.id\n   HAVING AVG(property_reviews.rating) >= $" ++
          toString ((buildQuery o l).whereConditions.length + 1) ++ "\n    ORDER BY")
        (buildQuery o l).queryString = 1 ∧
      (clauseRefs (buildQuery o l).queryString).filter
          (fun c => c.1 == "AVG(property_reviews.rating) >=") =
        [("AVG(property_reviews.rating) >=", (buildQuery o l).whereConditions.length + 1)] ∧
      (buildQuery o l).queryParams[(buildQuery o l).whereConditions.length]? =
        some (Value.num r)) ∧
    occursIn "WHERE" (buildQuery ⟨none, none, none, none, some 4⟩ none).queryString = false ∧
    (buildQuery ⟨none, none, none, none, some 4⟩ none).queryParams =
      [Value.num 4, Value.num 10] ∧
    (buildQuery ⟨some "paris", none, none, none, some 3⟩ (some 20)).queryParams =
      [Value.str "%paris%", Value.num 3, Value.num 20] := by
  have hs := having_sample (truthyStr o.city) (truthyNum o.owner_id)
    o.minimum_price_per_night.isSome o.maximum_price_per_night.isSome o.minimum_rating.isSome
  rw [← (buildQuery_sample o l).1, ← (buildQuery_sample o l).2.1] at hs
  have hw := (whereConditions_sample (truthyStr o.city) (truthyNum o.owner_id)
    o.minimum_price_per_night.isSome o.maximum_price_per_night.isSome
    o.minimum_rating.isSome).2.2.2
  rw [← (buildQuery_sample o l).2.1] at hw
  have hlen : (buildQuery o l).whereConditions.length = takenCount o := by
    rw [(buildQuery_sample o l).2.1]
    exact (whereConditions_sample _ _ _ _ _).2.1
  refine ⟨hs.1, hw, hs.2.2.1, ?_, ?_, by decide, by decide⟩
  · intro r hr
    have he : o.minimum_rating.isSome = true := by rw [hr]; rfl
    refine ⟨?_, ?_, ?_, ?_⟩
    · rw [hs.2.1, he]; rfl
    · rw [hs.2.2.2, he]; rfl
    · rw [clauseRefs_eq, hlen]
      cases h1 : truthyStr o.city <;> cases h2 : truthyNum o.owner_id <;>
        cases h3 : o.minimum_price_per_night.isSome <;>
        cases h4 : o.maximum_price_per_night.isSome <;>
        simp [hr, List.filter_cons]
    · obtain ⟨pre, hpre, hq⟩ := queryParams_split o l
      rw [hq, hlen, ← hpre, List.getElem?_append_right (le_refl _)]
      simp [hr]
  · rw [(buildQuery_sample _ none).1]
    set_option maxRecDepth 100000 in decide

/-- C4 (witness): Paris with a minimum rating of 3 and limit 20. -/
theorem having_iff_minimum_rating_witness :
    (⟨some "paris", none, none, none, some 3⟩ : Options).minimum_rating = some 3 ∧
      (buildQuery ⟨some "paris", none, none, none, some 3⟩ (some 20)).queryParams[
        (buildQuery ⟨some "paris", none, none, none, some 3⟩ (some 20)).whereConditions.length]? =
          some (Value.num 3) :=
  ⟨rfl, ((having_iff_minimum_rating ⟨some "paris", none, none, none, some 3⟩
    (some 20)).2.2.2.1 3 rfl).2.2.2⟩

/-! ## `LIKE` on a wrapped literal -/

/-- A pattern without an escape reads character by character. -/
theorem likeItems_plain (c : List Char) (hc : likeEscape ∉ c) :
    likeItems c = some (c.map likeItem) := by
  induction c with
  | nil => rfl
  | cons x c ih =>
    have hx : x ≠ likeEscape := fun h => hc (by simp [h])
    have hc' : likeEscape ∉ c := fun h => hc (by simp [h])
    cases c with
    | nil => simp [likeItems, hx]
    | cons y c => simp [likeItems, hx, ih hc']

/-- The elements of `c` followed by `%` match every string that starts with `c`. -/
theorem itemsMatch_literal (c t : List Char) :
    itemsMatch (c.map likeItem ++ [LikeItem.anySeq]) (c ++ t) = true := by
  induction c with
  | nil =>
    simp only [List.map_nil, List.nil_append, itemsMatch, List.any_eq_true]
    exact ⟨[], by simp, rfl⟩
  | cons x c ih =>
    simp only [List.map_cons, List.cons_append, likeItem]
    by_cases h1 : x = '%'
    · simp only [h1, if_true, itemsMatch, List.any_eq_true]
      exact ⟨c ++ t, by simp, ih⟩
    · by_cases h2 : x = '_'
      · simp [h2, itemsMatch, ih]
      · simp [h1, h2, itemsMatch, ih]

/-- A string that contains `c` verbatim satisfies `LIKE '%c%'`. -/
theorem sqlLike_wrapped (c v : String) (hc : likeEscape ∉ c.toList)
    (h : c.toList <:+: v.toList) : sqlLike v ("%" ++ c ++ "%") = true := by
  have hp : likeItems ("%" ++ c ++ "%").toList
      = some (LikeItem.anySeq :: (c.toList.map likeItem ++ [LikeItem.anySeq])) := by
    have : ("%" ++ c ++ "%").toList = ('%' :: c.toList ++ ['%']) := by simp
    rw [this, likeItems_plain]
    · simp [likeItem]
    · have e1 : likeEscape ≠ '%' := by decide
      simpa [e1] using hc
  obtain ⟨a, t, hv⟩ := h
  simp only [sqlLike, hp, itemsMatch, List.any_eq_true]
  refine ⟨c.toList ++ t, ?_, itemsMatch_literal _ t⟩
  rw [List.mem_tails, ← hv]
  exact ⟨a, by simp⟩

/-- C6 (as amended): when `city` is a non-empty string `c`, the first parameter is
`"%" ++ c ++ "%"` and the first WHERE predicate is `city LIKE $1`; `LIKE` compares
letters exactly, and a listing whose city contains `c` verbatim (`c` without a
backslash) satisfies the predicate. -/
theorem city_bound_wrapped_like (o : Options) (l : Option Int) (c : String)
    (hcity : o.city = some c) (hne : c ≠ "") :
    (buildQuery o l).queryParams.head? = some (Value.str ("%" ++ c ++ "%")) ∧
      (buildQuery o l).whereConditions.head? = some "city LIKE $1" ∧
      (clauseRefs (buildQuery o l).queryString).head? = some ("city LIKE", 1) ∧
      ∀ v : String, likeEscape ∉ c.toList → c.toList <:+: v.toList →
        sqlLike v ("%" ++ c ++ "%") = true := by
  obtain ⟨oc, ow, mn, mx, r⟩ := o
  simp only at hcity
  subst hcity
  have ht : truthyStr (some c) = true := by simp [truthyStr, hne]
  refine ⟨?_, ?_, ?_, fun v hesc hv => sqlLike_wrapped c v hesc hv⟩
  · rw [queryParams_eq]
    simp [ht, templateStr]
  · rw [whereConditions_eq]
    simp [ht]
  · rw [clauseRefs_eq]
    simp [ht]

/-- C6 (witness): the city filter `"van"` and the listing city `"Savannah"`. -/
theorem city_bound_wrapped_like_witness :
    (buildQuery ⟨some "van", none, none, none, none⟩ (some 5)).queryParams =
        [Value.str "%van%", Value.num 5] ∧
      (buildQuery ⟨some "van", none, none, none, none⟩ (some 5)).queryParams.head? =
        some (Value.str ("%" ++ "van" ++ "%")) ∧
      sqlLike "Savannah" ("%" ++ "van" ++ "%") = true :=
  ⟨by decide,
    (city_bound_wrapped_like ⟨some "van", none, none, none, none⟩ (some 5) "van" rfl
      (by decide)).1,
    (city_bound_wrapped_like ⟨some "van", none, none, none, none⟩ (some 5) "van" rfl
      (by decide)).2.2.2 "Savannah" (by decide) ⟨"Sa".toList, "nah".toList, by decide⟩⟩

/-- C6 (counterexample): for `city = "van"` the predicate is `city LIKE $1` with
`"%van%"` bound, and the listing city `"Vancouver"`, which contains `van` up to
letter case, does not satisfy it; for `city = ""` nothing is bound but the limit. -/
theorem city_like_is_case_sensitive :
    (buildQuery ⟨some "van", none, none, none, none⟩ (some 5)).whereConditions =
        ["city LIKE $1"] ∧
      (buildQuery ⟨some "van", none, none, none, none⟩ (some 5)).queryParams =
        [Value.str "%van%", Value.num 5] ∧
      containsIgnoringCase "Vancouver" "van" = true ∧
      sqlLike "Vancouver" "%van%" = false ∧
      (buildQuery ⟨some "", none, none, none, none⟩ (some 5)).queryParams = [Value.num 5] := by
  set_option maxRecDepth 100000 in decide

/-- C8: `getAllProperties` issues one query, the text and the parameters built; it
settles as the capability does, with the capability's error when that fails and with
the capability's rows, unchanged, when it succeeds; it fails in no other case. -/
theorem getAllProperties_forwards_outcome {ε : Type} (pool : Pool ε) (o : Options)
    (l : Option Int) :
    (getAllProperties pool o l).issued =
        [((buildQuery o l).queryString, (buildQuery o l).queryParams)] ∧
      (∀ e, pool.execute (buildQuery o l).queryString (buildQuery o l).queryParams =
          Except.error e → (getAllProperties pool o l).settled = Except.error e) ∧
      (∀ res, pool.execute (buildQuery o l).queryString (buildQuery o l).queryParams =
          Except.ok res → (getAllProperties pool o l).settled = Except.ok (JSVal.rows res.rows)) ∧
      (∀ e, (getAllProperties pool o l).settled = Except.error e →
          pool.execute (buildQuery o l).queryString (buildQuery o l).queryParams =
            Except.error e) := by
  refine ⟨rfl, ?_, ?_, ?_⟩
  · intro e h
    simp [getAllProperties, Pool.query, Promise.andThen, h]
  · intro res h
    simp [getAllProperties, Pool.query, Promise.andThen, h, QueryResult.get]
  · intro e h
    simp only [getAllProperties, Pool.query, Promise.andThen] at h
    cases hx : pool.execute (buildQuery o l).queryString (buildQuery o l).queryParams with
    | error e' => rw [hx] at h; simpa using h
    | ok res => rw [hx] at h; simp at h

/-- C8 (witness): against a capability that answers with two rows, the search for
Paris resolves with those two rows in that order. -/
theorem getAllProperties_forwards_outcome_witness :
    twoRowPool.execute (buildQuery ⟨some "paris", none, none, none, none⟩ none).queryString
        (buildQuery ⟨some "paris", none, none, none, none⟩ none).queryParams =
        Except.ok { command := "SELECT", rowCount := 2,
                    rows := [[("id", Value.num 7)], [("id", Value.num 3)]] } ∧
      (getAllProperties twoRowPool ⟨some "paris", none, none, none, none⟩ none).settled =
        Except.ok (JSVal.rows [[("id", Value.num 7)], [("id", Value.num 3)]]) :=
  ⟨rfl, (getAllProperties_forwards_outcome twoRowPool
    ⟨some "paris", none, none, none, none⟩ none).2.2.1 _ rfl⟩

/-- Whatever the capability answers, `addUser` issues the INSERT with the parameters
name, email, password, and resolves with `undefined`. -/
theorem addUser_settles_undefined {ε : Type} (pool : Pool ε) (user : User) :
    (addUser pool user).issued =
        [(addUserText, [Value.str user.name, Value.str user.email, Value.str user.password])] ∧
      (addUser pool user).settled = Except.ok JSVal.undefined := by
  refine ⟨rfl, ?_⟩
  simp only [addUser, Pool.query, Promise.andThen, Promise.catchWith]
  cases pool.execute addUserText
      [Value.str user.name, Value.str user.email, Value.str user.password] with
  | error e => rfl
  | ok res => simp [QueryResult.get]

/-- C9: for the user Ann and a capability whose INSERT succeeds with Ann's row in
`rows`, `addUser` issues the INSERT with the parameters name, email, password in
that order, but resolves with `undefined`, not with the inserted row. -/
theorem addUser_loses_inserted_user :
    insertingPool.execute addUserText
        [Value.str ann.name, Value.str ann.email, Value.str ann.password] =
        Except.ok { command := "INSERT", rowCount := 1, rows := [annRow] } ∧
      (addUser insertingPool ann).issued =
        [(addUserText,
          [Value.str "Ann", Value.str "ann@example.com", Value.str "secret"])] ∧
      (addUser insertingPool ann).settled = Except.ok JSVal.undefined ∧
      (addUser insertingPool ann).settled ≠ Except.ok (JSVal.row annRow) := by
  refine ⟨rfl, rfl, (addUser_settles_undefined insertingPool ann).2, ?_⟩
  rw [(addUser_settles_undefined insertingPool ann).2]
  simp

end LightBnB
